import Mathlib

/-!
Verification development for the Vidu video-generation front-end and proxy.

The repository is a React browser client (`VideoGenerator` component), an
axios API client (`viduApi`), and an Express proxy server.  The claims under
study concern:

  * the client-side job tracker: `handleSubmit`, `handleImageSubmit`,
    `pollTaskCreations` (a 5-second `setInterval` plus a 600-second
    `setTimeout`), `handleTaskLookup`, `getGeneratedVideo`,
    `getCurrentStatus`;
  * the proxy's `POST /api/img2video` handler, which applies model- and
    duration-dependent defaults before forwarding to the remote API.

The embedding below is a direct shallow translation of that code.  JavaScript
truthiness is modelled explicitly: an absent field is `Option.none`, an empty
string and the number 0 are falsy.  JavaScript values that may be either a
number or a string (the `duration` field crossing the client/proxy boundary)
are modelled by the sum type `JVal`.  The single-threaded event loop is
modelled by atomic handler steps acting on a `Tracker` record; the timers the
code registers (and the stale closure snapshot captured by the 600-second
timeout callback) are recorded in a `timers` field, and timer callbacks are
modelled as events (`pollTick`, `timeoutFire`) that act only while the
corresponding timer is registered.  The API client (`viduApi` and the axios
interceptor) always throws `Error` instances with a message string, so a
fallible remote call is modelled as `Except String α`.
-/

/-- A JavaScript value that is either a number or a string (as the
`duration` field of an img2video request body can be: the browser client
sends `finalDuration.toString()` while the proxy defaults it to a number). -/
inductive JVal where
  | num (n : Int)
  | str (s : String)
deriving DecidableEq, Repr

/-- JavaScript truthiness of a `JVal`: the number 0 and the empty string are
falsy, everything else is truthy. -/
def JVal.truthy : JVal → Bool
  | .num n => n != 0
  | .str s => s != ""

/-- JavaScript truthiness of an optional value (`undefined` is falsy). -/
def jsTruthy : Option JVal → Bool
  | none => false
  | some v => v.truthy

/-- Drop leading whitespace from a character list. -/
def dropLeadingWS : List Char → List Char
  | [] => []
  | c :: cs => if c.isWhitespace then dropLeadingWS cs else c :: cs

/-- JavaScript `String.prototype.trim()`: remove whitespace from both ends.
Modelled over the character list so that it evaluates by kernel reduction. -/
def jsTrim (s : String) : String :=
  ⟨(dropLeadingWS (dropLeadingWS s.data.reverse).reverse)⟩

/-- One produced artifact, `ViduTaskCreation`: id, playable URL, cover URL. -/
structure Creation where
  id : String
  url : String
  cover_url : String
deriving DecidableEq, Repr

/-- The body of `GET /api/tasks/:taskId/creations`
(`ViduTaskCreationsResponse`): remote state string, error code (the empty
string models an absent / empty `err_code`, both falsy in the source),
artifact list, payload string and credit cost. -/
structure CreationsResponse where
  state : String
  err_code : String
  creations : List Creation
  payload : String
  credits : Int
deriving DecidableEq, Repr

/-- A history entry (`ViduVideoResponse`): the fields of the job-creation
response / synthetic lookup response that the tracker consumes.  Fields the
code leaves absent are modelled by the empty string / 0. -/
structure Job where
  task_id : String
  state : String
  status : String
  prompt : String
  model : String
  duration : Int
deriving DecidableEq, Repr

/-- Kind of a pending browser timer registered by `pollTaskCreations`:
the 5-second `setInterval` or the 600-second `setTimeout`. -/
inductive TimerKind where
  | interval
  | timeout
deriving DecidableEq, Repr

/-- A pending timer callback registered by `pollTaskCreations(taskId)`.
`captured` is the value of the `taskCreationsResponse` state variable in the
closure that registered the timer (the render in which the submit handler was
created): the 600-second timeout callback reads this stale snapshot, not the
live state, when deciding whether to surface the timeout message. -/
structure Timer where
  kind : TimerKind
  taskId : String
  captured : Option CreationsResponse
deriving DecidableEq, Repr

/-- The `VideoGenerator` component state consumed by the tracker logic,
together with the list of registered timers. -/
structure Tracker where
  prompt : String
  taskIdInput : String
  isGenerating : Bool
  isLookingUp : Bool
  isPolling : Bool
  videoHistory : List Job
  currentTaskResponse : Option Job
  taskCreationsResponse : Option CreationsResponse
  error : Option String
  timers : List Timer
deriving DecidableEq, Repr

/-- Whether an interval callback for `taskId` is currently registered. -/
def intervalRegistered (s : Tracker) (taskId : String) : Bool :=
  s.timers.any fun t => t.kind == TimerKind.interval && t.taskId == taskId

/-- `clearInterval(pollInterval)`: deregister the interval callback(s) tied
to `taskId`. -/
def clearIntervalFor (s : Tracker) (taskId : String) : Tracker :=
  { s with timers :=
      s.timers.filter fun t =>
        !(t.kind == TimerKind.interval && t.taskId == taskId) }

/-- The condition of line 169 of the component,
`response.state === 'success' && response.creations && response.creations.length > 0`. -/
def respSuccess : Option CreationsResponse → Bool
  | some r => r.state == "success" && !r.creations.isEmpty
  | none => false

/-- The condition of line 173 of the component,
`response.state === 'error' || response.err_code`. -/
def respError : Option CreationsResponse → Bool
  | some r => r.state == "error" || r.err_code != ""
  | none => false

/-- One firing of the 5-second interval callback registered by
`pollTaskCreations(taskId)`, with `r` the outcome of the awaited
`viduApi.getTaskCreations(taskId)` call.  If the interval has been
deregistered the callback never runs (no-op). -/
def pollTick (s : Tracker) (taskId : String) (r : Except String CreationsResponse) : Tracker :=
  if intervalRegistered s taskId then
    match r with
    | .error msg =>
        let s1 := clearIntervalFor s taskId
        { s1 with isPolling := false, error := some msg }
    | .ok resp =>
        let s1 := { s with taskCreationsResponse := some resp }
        if respSuccess (some resp) then
          let s2 := clearIntervalFor s1 taskId
          { s2 with isPolling := false }
        else if respError (some resp) then
          let s2 := clearIntervalFor s1 taskId
          { s2 with isPolling := false,
                    error := some (if resp.err_code != "" then resp.err_code
                                   else "Video generation failed") }
        else s1
  else s

/-- Whether the stale snapshot `taskCreationsResponse?.creations?.length`
captured by the timeout closure is falsy. -/
def capturedEmpty : Option CreationsResponse → Bool
  | none => true
  | some c => c.creations.isEmpty

/-- The firing of the 600-second `setTimeout` callback registered by
`pollTaskCreations(taskId)` with stale snapshot `cap`: it clears the poll
interval, resets the polling flag, and surfaces the generic timeout message
when the captured snapshot has no creations.  If this timeout is not
registered (it already fired) the callback does not run. -/
def timeoutFire (s : Tracker) (taskId : String) (cap : Option CreationsResponse) : Tracker :=
  if Timer.mk TimerKind.timeout taskId cap ∈ s.timers then
    let ts := s.timers.filter fun t =>
      !((t.kind == TimerKind.interval && t.taskId == taskId) ||
        t == Timer.mk TimerKind.timeout taskId cap)
    { s with timers := ts,
             isPolling := false,
             error := if capturedEmpty cap then
                        some "Video generation timed out. Please try again."
                      else s.error }
  else s

/-- `handleSubmit`, the text-to-video submission handler, with `r` the outcome
of the awaited `viduApi.generateVideo(...)` call.  The guard of line 36 is
`if (!prompt.trim() || isGenerating) return;`.  On success the response is
prepended to the history and, when it carries a task id, `pollTaskCreations`
registers the interval and timeout callbacks; the timeout closure captures the
pre-submission `taskCreationsResponse` variable of the rendering closure. -/
def handleSubmit (s : Tracker) (r : Except String Job) : Tracker :=
  if jsTrim s.prompt == "" || s.isGenerating then s
  else
    let captured := s.taskCreationsResponse
    let s1 := { s with isGenerating := true, error := none,
                       currentTaskResponse := none,
                       taskCreationsResponse := none,
                       isPolling := false }
    match r with
    | .error msg => { s1 with error := some msg, isGenerating := false }
    | .ok resp =>
        let s2 := { s1 with currentTaskResponse := some resp,
                            videoHistory := resp :: s1.videoHistory }
        let s3 :=
          if resp.task_id != "" then
            { s2 with isPolling := true,
                      timers := s2.timers ++
                        [Timer.mk TimerKind.interval resp.task_id captured,
                         Timer.mk TimerKind.timeout resp.task_id captured] }
          else s2
        { s3 with isGenerating := false }

/-- Client-side default duration of `handleImageSubmit` (lines 126-127):
`const defaultDuration = imageModel === 'viduq1' ? 5 : 4;
 const finalDuration = imageDuration || defaultDuration;`
(`imageDuration` equal to 0 is falsy). -/
def clientFinalDuration (imageModel : String) (imageDuration : Int) : Int :=
  if imageDuration != 0 then imageDuration
  else if imageModel == "viduq1" then 5 else 4

/-- The `duration` field the browser client puts in the img2video request
body: `duration: finalDuration.toString()` — always a string. -/
def clientSentDuration (imageModel : String) (imageDuration : Int) : JVal :=
  JVal.str (toString (clientFinalDuration imageModel imageDuration))

/-- Substring containment as used by the handler's
`err.message.includes(...)` checks (for non-empty patterns):
`pat` occurs in `s` iff splitting on `pat` yields at least two pieces. -/
def containsSub (s pat : String) : Bool :=
  (s.splitOn pat).length ≥ 2

/-- The error-message specialisation of `handleTaskLookup`'s catch block
(lines 296-311): substring matching on the thrown `Error`'s message. -/
def lookupErrorMessage (trimmedId msg : String) : String :=
  if containsSub msg "404" || containsSub msg.toLower "not found" then
    "Task ID \"" ++ trimmedId ++ "\" was not found. Please verify that:\n• The task ID is correct and complete\n• The video generation was successful\n• The task ID belongs to your account\n• The task hasn't expired (tasks may have a limited lifespan)"
  else if containsSub msg.toLower "unauthorized" || containsSub msg.toLower "401" then
    "Authentication failed. Please check your API key configuration."
  else if containsSub msg.toLower "timeout" then
    "Request timed out. Please try again."
  else msg

/-- The synthetic `mockResponse` Job that `handleTaskLookup` builds from a
successful creations response (lines 264-277): remote state `success` maps to
local status `completed`, `error` to `failed`, anything else to `processing`;
the prompt is `response.payload || 'Retrieved from task ID'`.  The
`created_at`/`updated_at` wall-clock fields are not modelled. -/
def mkMockJob (trimmedId : String) (resp : CreationsResponse) : Job :=
  { task_id := trimmedId,
    state := resp.state,
    status := if resp.state == "success" then "completed"
              else if resp.state == "error" then "failed"
              else "processing",
    prompt := if resp.payload != "" then resp.payload
              else "Retrieved from task ID",
    model := "viduq1",
    duration := 5 }

/-- `handleTaskLookup`, the task-id lookup handler, with `r` the outcome of
the awaited `viduApi.getTaskCreations(taskIdInput.trim())` call.  The guard of
line 247 is `if (!taskIdInput.trim() || isLookingUp) return;`.  On success a
synthetic Job is built and prepended to the history unless an entry with the
same `task_id` already exists; on failure the specialised error message is
surfaced and the history is untouched. -/
def handleTaskLookup (s : Tracker) (r : Except String CreationsResponse) : Tracker :=
  if jsTrim s.taskIdInput == "" || s.isLookingUp then s
  else
    let trimmed := jsTrim s.taskIdInput
    let s1 := { s with isLookingUp := true, error := none,
                       currentTaskResponse := none,
                       taskCreationsResponse := none,
                       isPolling := false }
    match r with
    | .error msg =>
        { s1 with error := some (lookupErrorMessage trimmed msg),
                  isLookingUp := false }
    | .ok resp =>
        let mock := mkMockJob trimmed resp
        let hist :=
          if s1.videoHistory.any (fun v => v.task_id == trimmed) then
            s1.videoHistory
          else mock :: s1.videoHistory
        { s1 with taskCreationsResponse := some resp,
                  currentTaskResponse := some mock,
                  videoHistory := hist,
                  taskIdInput := "",
                  isLookingUp := false }

/-- `getGeneratedVideo` (lines 205-210): the first creation when the last
creations response is a success with at least one artifact. -/
def getGeneratedVideo (s : Tracker) : Option Creation :=
  match s.taskCreationsResponse with
  | some r => if r.state == "success" && !r.creations.isEmpty then r.creations.head? else none
  | none => none

/-- `getCurrentStatus` (lines 215-227): the tracker's displayed lifecycle
status, derived from the polling flag, the last creations response and the
current task response. -/
def getCurrentStatus (s : Tracker) : String :=
  if s.isPolling then "processing"
  else if respSuccess s.taskCreationsResponse then "completed"
  else if respError s.taskCreationsResponse then "failed"
  else if (match s.currentTaskResponse with
           | some j => j.task_id != ""
           | none => false) then "pending"
  else "idle"

/-- The proxy's default duration for `POST /api/img2video`
(part_002 lines 276-279): `let finalDuration = duration;
if (!finalDuration) finalDuration = model === 'viduq1' ? 5 : 4;`
— an absent, zero or empty-string duration is replaced by the
model-dependent numeric default. -/
def img2videoFinalDuration (model : String) (duration : Option JVal) : JVal :=
  match duration with
  | some v => if v.truthy then v
              else if model == "viduq1" then JVal.num 5 else JVal.num 4
  | none => if model == "viduq1" then JVal.num 5 else JVal.num 4

/-- The proxy's default resolution computed from the model and the (already
defaulted) duration (part_002 lines 283-291): `viduq1` always defaults to
`1080p`; otherwise the strict comparisons `finalDuration === 4` /
`finalDuration === 8` select `360p` / `720p`, and any other duration value
(including a numeric string) leaves the resolution undefined. -/
def img2videoDefaultResolution (model : String) (fd : JVal) : Option String :=
  if model == "viduq1" then some "1080p"
  else if fd == JVal.num 4 then some "360p"
  else if fd == JVal.num 8 then some "720p"
  else none

/-- The proxy's effective resolution: the caller's resolution when truthy,
otherwise the model/duration-dependent default (which may be undefined). -/
def img2videoFinalResolution (model : String) (duration : Option JVal)
    (resolution : Option String) : Option String :=
  match resolution with
  | some r => if r != "" then some r
              else img2videoDefaultResolution model (img2videoFinalDuration model duration)
  | none => img2videoDefaultResolution model (img2videoFinalDuration model duration)

/-- The request body the proxy forwards to
`https://api.vidu.com/ent/v2/img2video` (part_002 lines 293-306): mandatory
fields plus the optional fields added only when present/truthy. -/
structure Img2VideoForward where
  model : String
  images : List String
  duration : JVal
  movement_amplitude : String
  bgm : Bool
  prompt : Option String
  seed : Option JVal
  resolution : Option String
deriving DecidableEq, Repr

/-- The `POST /api/img2video` handler of the proxy (part_002 lines 227-324),
from validated body fields to either an error status/message pair or the
forwarded request.  `resolution` is included only when the effective
resolution is truthy (`if (finalResolution) ...`; the defaulting never
produces an empty string, and a caller-supplied empty string is falsy and
triggers the defaulting), `prompt` only when truthy, and `seed` whenever it
is not undefined. -/
def img2videoForward (images : List String) (prompt : Option String)
    (model : String) (duration : Option JVal) (seed : Option JVal)
    (resolution : Option String) (movement_amplitude : String) (bgm : Bool) :
    Except (Nat × String) Img2VideoForward :=
  if images.isEmpty then
    .error (400, "images field is required and must be a non-empty array")
  else if images.length > 1 then
    .error (400, "Only 1 image is accepted")
  else if !(model == "viduq1" || model == "vidu2.0" || model == "vidu1.5") then
    .error (400, "Invalid model. Accepted values: viduq1, vidu2.0, vidu1.5")
  else
    .ok { model := model,
          images := images,
          duration := img2videoFinalDuration model duration,
          movement_amplitude := movement_amplitude,
          bgm := bgm,
          prompt := match prompt with
                    | some p => if p != "" then some p else none
                    | none => none,
          seed := seed,
          resolution := img2videoFinalResolution model duration resolution }

/-! Concrete fixtures used by counterexamples and witnesses. -/

/-- A job-creation response for task id `A`. -/
def jobA : Job := ⟨"A", "", "", "first", "viduq1", 5⟩

/-- A job-creation response for task id `B`. -/
def jobB : Job := ⟨"B", "", "", "second", "viduq1", 5⟩

/-- The initial component state with a non-blank prompt typed in. -/
def tracker0 : Tracker :=
  { prompt := "hello", taskIdInput := "", isGenerating := false,
    isLookingUp := false, isPolling := false, videoHistory := [],
    currentTaskResponse := none, taskCreationsResponse := none,
    error := none, timers := [] }

/-- The state after a successful text-to-video submission of job `A`:
polling with job `A`'s interval and timeout callbacks registered. -/
def trackerA : Tracker := handleSubmit tracker0 (Except.ok jobA)

/-- A non-terminal creations response (still generating). -/
def midResp : CreationsResponse := ⟨"created", "", [], "", 0⟩

/-- A produced artifact with id `a`. -/
def creationA : Creation := ⟨"a", "http://x/a.mp4", "http://x/a.jpg"⟩

/-- A terminal success response carrying one artifact. -/
def succResp : CreationsResponse := ⟨"success", "", [creationA], "", 1⟩

/-- The state after job `A`'s poll observes the terminal success response. -/
def trackerDone : Tracker := pollTick trackerA "A" (Except.ok succResp)

/-- A response whose state is `success` with an artifact but whose
`err_code` is also non-empty. -/
def respSuccErr : CreationsResponse := ⟨"success", "E1", [creationA], "", 1⟩

/-- A terminal error response with error code `E1`. -/
def respE1 : CreationsResponse := ⟨"error", "E1", [], "", 0⟩

/-- A successful creations response for a lookup, carrying a payload. -/
def lookResp : CreationsResponse := ⟨"success", "", [creationA], "My prompt", 2⟩

/-- The initial state with a task id typed into the lookup field. -/
def trackerLookup : Tracker := { tracker0 with taskIdInput := "T1" }

/-- The request the proxy forwards for model `vidu2.0`, numeric duration 4
and no explicit resolution. -/
def fwd360 : Img2VideoForward :=
  { model := "vidu2.0", images := ["i"], duration := JVal.num 4,
    movement_amplitude := "auto", bgm := false, prompt := none,
    seed := none, resolution := some "360p" }

/-- The request the proxy forwards for model `vidu2.0` when the client sends
the string duration `"8"` and no explicit resolution. -/
def fwdStr8 : Img2VideoForward :=
  { model := "vidu2.0", images := ["i"], duration := JVal.str "8",
    movement_amplitude := "auto", bgm := false, prompt := none,
    seed := none, resolution := none }

/-! Helper lemmas. -/

/-- A filter that excludes everything satisfying `q` leaves no witness
for `any q`. -/
theorem any_filter_eq_false {α : Type} (l : List α) (p q : α → Bool)
    (h : ∀ a, q a = true → p a = false) : (l.filter p).any q = false := by
  rw [Bool.eq_false_iff]
  intro hcon
  rw [List.any_eq_true] at hcon
  obtain ⟨t, ht, hq⟩ := hcon
  rw [List.mem_filter] at ht
  rw [h t hq] at ht
  simp at ht

/-- Inversion for the img2video proxy handler: when it forwards a request,
the model passed validation and the forwarded duration and resolution are the
defaulted ones. -/
theorem img2videoForward_ok {images : List String} {prompt : Option String}
    {model : String} {duration : Option JVal} {seed : Option JVal}
    {resolution : Option String} {ma : String} {bgm : Bool}
    {fwd : Img2VideoForward}
    (h : img2videoForward images prompt model duration seed resolution ma bgm = Except.ok fwd) :
    (model = "viduq1" ∨ model = "vidu2.0" ∨ model = "vidu1.5") ∧
    fwd.duration = img2videoFinalDuration model duration ∧
    fwd.resolution = img2videoFinalResolution model duration resolution := by
  unfold img2videoForward at h
  split at h
  · simp at h
  · split at h
    · simp at h
    · split at h
      · simp at h
      · rename_i hvalid
        cases h
        refine ⟨?_, rfl, rfl⟩
        simp at hvalid
        by_cases h1 : model = "viduq1"
        · exact Or.inl h1
        by_cases h2 : model = "vidu2.0"
        · exact Or.inr (Or.inl h2)
        exact Or.inr (Or.inr (hvalid h1 h2))

/-! Claim theorems. -/

/-- C1 (corrected, counterexample): with the tracker polling job `A` and no
submission in flight, a new text-to-video submission is not rejected — the
History length changes from 1 to 2, refuting the claimed no-op. -/
theorem submit_while_polling_adds_to_history :
    trackerA.isPolling = true ∧
    trackerA.isGenerating = false ∧
    (handleSubmit trackerA (Except.ok jobB)).videoHistory.length ≠
      trackerA.videoHistory.length := by
  decide

/-- C1 (amended): a user-initiated text-to-video submission is a no-op
exactly when the trimmed prompt is blank or a previous submission request is
still in flight (`isGenerating`); while the tracker is merely polling an
earlier job, a new submission proceeds and prepends the new job to History. -/
theorem submit_guard_only_inflight (s : Tracker) (r : Except String Job) :
    ((jsTrim s.prompt = "" ∨ s.isGenerating = true) → handleSubmit s r = s) ∧
    (∀ j, jsTrim s.prompt ≠ "" → s.isGenerating = false →
       (handleSubmit s (Except.ok j)).videoHistory = j :: s.videoHistory) := by
  constructor
  · intro hg
    have hc : (jsTrim s.prompt == "" || s.isGenerating) = true := by
      rcases hg with h | h <;> simp [h]
    unfold handleSubmit
    rw [if_pos hc]
  · intro j hp hg
    have hc : (jsTrim s.prompt == "" || s.isGenerating) = false := by
      simp [hp, hg]
    unfold handleSubmit
    rw [if_neg (by simp [hc])]
    simp only
    split <;> rfl

/-- C1 (witness): the guard rejects a blank prompt, and a submission while
polling job `A` prepends job `B` to the history. -/
theorem submit_guard_only_inflight_witness :
    handleSubmit { tracker0 with prompt := " " } (Except.ok jobA) =
      { tracker0 with prompt := " " } ∧
    (handleSubmit trackerA (Except.ok jobB)).videoHistory =
      jobB :: trackerA.videoHistory := by
  exact ⟨(submit_guard_only_inflight { tracker0 with prompt := " " }
            (Except.ok jobA)).1 (Or.inl (by decide)),
         (submit_guard_only_inflight trackerA
            (Except.ok jobB)).2 jobB (by decide) (by decide)⟩

/-- C2 (corrected, counterexample): after a second submission (job `B`)
supersedes job `A`, job `A`'s interval callback is still registered and
firing it still mutates the tracker state (it overwrites
`taskCreationsResponse`). -/
theorem stale_interval_mutates_after_resubmit :
    Timer.mk TimerKind.interval "A" none ∈
      (handleSubmit trackerA (Except.ok jobB)).timers ∧
    (pollTick (handleSubmit trackerA (Except.ok jobB)) "A"
        (Except.ok midResp)).taskCreationsResponse ≠
      (handleSubmit trackerA (Except.ok jobB)).taskCreationsResponse := by
  decide

/-- C2 (amended): initiating a new submission or lookup does not cancel the
previous job's poll-interval or timeout callbacks: every timer registered
before the operation is still registered afterwards, so callbacks tied to the
superseded job can still run and mutate tracker state. -/
theorem new_submission_preserves_old_timers (s : Tracker)
    (r : Except String Job) (r2 : Except String CreationsResponse)
    (t : Timer) (h : t ∈ s.timers) :
    t ∈ (handleSubmit s r).timers ∧ t ∈ (handleTaskLookup s r2).timers := by
  constructor
  · unfold handleSubmit
    split
    · exact h
    · cases r with
      | error msg => simpa using h
      | ok resp =>
        simp only
        split
        · simp only [List.mem_append]
          exact Or.inl h
        · simpa using h
  · unfold handleTaskLookup
    split
    · exact h
    · cases r2 with
      | error msg => simpa using h
      | ok resp => simpa using h

/-- C2 (witness): job `A`'s timeout timer survives both a new submission and
a new lookup started from the polling state. -/
theorem new_submission_preserves_old_timers_witness :
    Timer.mk TimerKind.timeout "A" none ∈
      (handleSubmit { trackerA with taskIdInput := "T1" } (Except.ok jobB)).timers ∧
    Timer.mk TimerKind.timeout "A" none ∈
      (handleTaskLookup { trackerA with taskIdInput := "T1" } (Except.ok lookResp)).timers := by
  exact new_submission_preserves_old_timers { trackerA with taskIdInput := "T1" }
    (Except.ok jobB) (Except.ok lookResp) (Timer.mk TimerKind.timeout "A" none) (by decide)

/-- C3 (corrected, counterexample): after job `A`'s poll observes the
terminal success response the tracker shows `completed`, yet the 600-second
timeout is still registered, and when it fires it surfaces the generic
timeout message anyway (its closure captured the pre-submission `none`
snapshot), refuting both "only when no terminal state was observed" and
"a terminal status check cancels the pending timeout". -/
theorem timeout_fires_after_success :
    getCurrentStatus trackerDone = "completed" ∧
    Timer.mk TimerKind.timeout "A" none ∈ trackerDone.timers ∧
    (timeoutFire trackerDone "A" none).error =
      some "Video generation timed out. Please try again." := by
  decide

/-- C3 (amended): a status check never cancels the pending 600-second
timeout (poll ticks preserve every timeout timer); when the timeout fires it
clears the poll interval — so no further poll requests are issued and a
subsequent interval firing for that job is a no-op — resets the polling
flag, and surfaces the generic timeout message whenever the creations
snapshot captured when polling began is empty, regardless of any terminal
state observed since. -/
theorem timeout_never_cancelled_behavior (s : Tracker) (taskId : String)
    (cap : Option CreationsResponse) (r r2 : Except String CreationsResponse) :
    (∀ t ∈ s.timers, t.kind = TimerKind.timeout → t ∈ (pollTick s taskId r).timers) ∧
    (Timer.mk TimerKind.timeout taskId cap ∈ s.timers → capturedEmpty cap = true →
       (timeoutFire s taskId cap).error =
         some "Video generation timed out. Please try again." ∧
       (timeoutFire s taskId cap).isPolling = false ∧
       intervalRegistered (timeoutFire s taskId cap) taskId = false ∧
       pollTick (timeoutFire s taskId cap) taskId r2 = timeoutFire s taskId cap) := by
  constructor
  · intro t ht hk
    unfold pollTick
    split
    · cases r with
      | error msg => simp [clearIntervalFor, List.mem_filter, ht, hk]
      | ok resp =>
        simp only
        split
        · simp [clearIntervalFor, List.mem_filter, ht, hk]
        · split
          · simp [clearIntervalFor, List.mem_filter, ht, hk]
          · simpa using ht
    · exact ht
  · intro hmem hcap
    have hreg : intervalRegistered (timeoutFire s taskId cap) taskId = false := by
      unfold timeoutFire
      rw [if_pos hmem]
      simp only [intervalRegistered]
      exact any_filter_eq_false _ _ _ (by intro a ha; simp [ha])
    refine ⟨?_, ?_, hreg, ?_⟩
    · unfold timeoutFire
      rw [if_pos hmem]
      simp [hcap]
    · unfold timeoutFire
      rw [if_pos hmem]
    · unfold pollTick
      rw [if_neg (by simp [hreg])]

/-- C3 (witness): firing job `A`'s timeout from the polling state surfaces
the generic message, stops polling, deregisters the interval, and makes a
later interval firing a no-op. -/
theorem timeout_never_cancelled_behavior_witness :
    (timeoutFire trackerA "A" none).error =
      some "Video generation timed out. Please try again." ∧
    (timeoutFire trackerA "A" none).isPolling = false ∧
    intervalRegistered (timeoutFire trackerA "A" none) "A" = false ∧
    pollTick (timeoutFire trackerA "A" none) "A" (Except.ok succResp) =
      timeoutFire trackerA "A" none := by
  exact (timeout_never_cancelled_behavior trackerA "A" none
    (Except.ok succResp) (Except.ok succResp)).2 (by decide) (by decide)

/-- C4 (confirmed): for every img2video request the proxy forwards with no
explicit resolution, a model other than `viduq1` gets resolution `360p` when
the effective duration is the number 4 and `720p` when it is the number 8,
while model `viduq1` always gets `1080p`. -/
theorem img2video_resolution_defaults (images : List String)
    (prompt : Option String) (model : String) (duration : Option JVal)
    (seed : Option JVal) (ma : String) (bgm : Bool) (fwd : Img2VideoForward)
    (h : img2videoForward images prompt model duration seed none ma bgm = Except.ok fwd) :
    (model ≠ "viduq1" →
       (fwd.duration = JVal.num 4 → fwd.resolution = some "360p") ∧
       (fwd.duration = JVal.num 8 → fwd.resolution = some "720p")) ∧
    (model = "viduq1" → fwd.resolution = some "1080p") := by
  obtain ⟨hv, hd, hr⟩ := img2videoForward_ok h
  constructor
  · intro hm
    have hm2 : (model == "viduq1") = false := by simp [hm]
    constructor
    · intro h4
      rw [hd] at h4
      rw [hr]
      simp [img2videoFinalResolution, img2videoDefaultResolution, hm2, h4]
    · intro h8
      rw [hd] at h8
      rw [hr]
      simp [img2videoFinalResolution, img2videoDefaultResolution, hm2, h8]
  · intro hm
    subst hm
    rw [hr]
    simp [img2videoFinalResolution, img2videoDefaultResolution]

/-- C4 (witness): model `vidu2.0` with numeric duration 4 and no resolution
forwards `360p`. -/
theorem img2video_resolution_defaults_witness :
    ("vidu2.0" : String) ≠ "viduq1" ∧
    fwd360.duration = JVal.num 4 ∧
    fwd360.resolution = some "360p" := by
  refine ⟨by decide, by decide, ?_⟩
  exact ((img2video_resolution_defaults ["i"] none "vidu2.0" (some (JVal.num 4))
    none "auto" false fwd360 rfl).1 (by decide)).1 (by decide)

/-- C5 (confirmed): with no explicit duration the proxy's effective duration
is 5 for model `viduq1` and 4 for `vidu2.0` / `vidu1.5`; the browser client
applies the same default when its duration state is falsy. -/
theorem img2video_duration_defaults :
    img2videoFinalDuration "viduq1" none = JVal.num 5 ∧
    img2videoFinalDuration "vidu2.0" none = JVal.num 4 ∧
    img2videoFinalDuration "vidu1.5" none = JVal.num 4 ∧
    clientFinalDuration "viduq1" 0 = 5 ∧
    clientFinalDuration "vidu2.0" 0 = 4 ∧
    clientFinalDuration "vidu1.5" 0 = 4 := by
  decide

/-- C6 (confirmed): a poll cycle observing a success response with at least
one artifact moves the displayed status to `completed` and makes the first
artifact of the response the job's result. -/
theorem poll_success_completes_with_first_artifact (s : Tracker)
    (taskId : String) (resp : CreationsResponse)
    (hreg : intervalRegistered s taskId = true)
    (hstate : resp.state = "success") (hne : resp.creations ≠ []) :
    getCurrentStatus (pollTick s taskId (Except.ok resp)) = "completed" ∧
    getGeneratedVideo (pollTick s taskId (Except.ok resp)) = resp.creations.head? := by
  have hcond : respSuccess (some resp) = true := by
    simp [respSuccess, hstate, hne]
  unfold pollTick
  rw [if_pos hreg]
  simp only
  rw [if_pos hcond]
  constructor
  · unfold getCurrentStatus
    simp [clearIntervalFor, respSuccess, hstate, hne]
  · unfold getGeneratedVideo
    simp [clearIntervalFor, hstate, hne]

/-- C6 (witness): polling job `A` with the concrete success response whose
creations list is `[{id := a, ...}]` completes with result id `a`. -/
theorem poll_success_completes_with_first_artifact_witness :
    getCurrentStatus (pollTick trackerA "A" (Except.ok succResp)) = "completed" ∧
    getGeneratedVideo (pollTick trackerA "A" (Except.ok succResp)) = some creationA := by
  have h := poll_success_completes_with_first_artifact trackerA "A" succResp
    (by decide) (by decide) (by decide)
  exact ⟨h.1, by rw [h.2]; decide⟩

/-- C7 (corrected, counterexample): a poll response with state `success`, a
non-empty creations list and the non-empty error code `E1` has a non-empty
`err_code` yet transitions the tracker to `completed` with no surfaced
message, because the success branch is checked first. -/
theorem poll_success_with_err_code_completes :
    respSuccErr.err_code = "E1" ∧
    getCurrentStatus (pollTick trackerA "A" (Except.ok respSuccErr)) = "completed" ∧
    (pollTick trackerA "A" (Except.ok respSuccErr)).error = none := by
  decide

/-- C7 (amended): for every poll cycle whose response does not satisfy the
success-with-artifacts condition and has state `error` or a non-empty
`err_code`, the tracker transitions to `failed`, polling stops (flag reset
and interval deregistered), and the surfaced message is the error code when
non-empty and the generic fallback otherwise. -/
theorem poll_error_fails_with_code_message (s : Tracker) (taskId : String)
    (resp : CreationsResponse)
    (hreg : intervalRegistered s taskId = true)
    (hnot : respSuccess (some resp) = false)
    (herr : resp.state = "error" ∨ resp.err_code ≠ "") :
    getCurrentStatus (pollTick s taskId (Except.ok resp)) = "failed" ∧
    (pollTick s taskId (Except.ok resp)).isPolling = false ∧
    intervalRegistered (pollTick s taskId (Except.ok resp)) taskId = false ∧
    (pollTick s taskId (Except.ok resp)).error =
      some (if resp.err_code ≠ "" then resp.err_code
            else "Video generation failed") := by
  have herr2 : respError (some resp) = true := by
    rcases herr with h | h <;> simp [respError, h]
  unfold pollTick
  rw [if_pos hreg]
  simp only
  rw [if_neg (by simp [hnot]), if_pos herr2]
  refine ⟨?_, rfl, ?_, ?_⟩
  · unfold getCurrentStatus
    simp [clearIntervalFor, hnot, herr2]
  · simp only [intervalRegistered, clearIntervalFor]
    exact any_filter_eq_false _ _ _ (by intro a ha; simp [ha])
  · by_cases h : resp.err_code = "" <;> simp [clearIntervalFor, h]

/-- C7 (witness): the response `{state := error, err_code := E1}` moves the
tracker to `failed` with surfaced message `E1`. -/
theorem poll_error_fails_with_code_message_witness :
    getCurrentStatus (pollTick trackerA "A" (Except.ok respE1)) = "failed" ∧
    (pollTick trackerA "A" (Except.ok respE1)).error = some "E1" := by
  have h := poll_error_fails_with_code_message trackerA "A" respE1
    (by decide) (by decide) (by decide)
  refine ⟨h.1, ?_⟩
  rw [h.2.2.2]
  decide

/-- C8 (confirmed): a successful task-id lookup adds the synthetic Job to
History exactly once, deduplicated on `task_id` (a task id already present
leaves History unchanged), while a failed lookup surfaces the specialised
error message and does not mutate History. -/
theorem lookup_dedup_and_error_no_mutation (s : Tracker)
    (resp : CreationsResponse) (msg : String)
    (ht : jsTrim s.taskIdInput ≠ "") (hl : s.isLookingUp = false) :
    ((s.videoHistory.any fun v => v.task_id == jsTrim s.taskIdInput) = true →
        (handleTaskLookup s (Except.ok resp)).videoHistory = s.videoHistory) ∧
    ((s.videoHistory.any fun v => v.task_id == jsTrim s.taskIdInput) = false →
        (handleTaskLookup s (Except.ok resp)).videoHistory =
          mkMockJob (jsTrim s.taskIdInput) resp :: s.videoHistory) ∧
    (handleTaskLookup s (Except.error msg)).videoHistory = s.videoHistory ∧
    (handleTaskLookup s (Except.error msg)).error =
      some (lookupErrorMessage (jsTrim s.taskIdInput) msg) := by
  have hguard : (jsTrim s.taskIdInput == "" || s.isLookingUp) = false := by
    simp [ht, hl]
  refine ⟨?_, ?_, ?_, ?_⟩
  · intro hdup
    unfold handleTaskLookup
    rw [if_neg (by simp [hguard])]
    simp [hdup]
  · intro hdup
    unfold handleTaskLookup
    rw [if_neg (by simp [hguard])]
    simp [hdup]
  · unfold handleTaskLookup
    rw [if_neg (by simp [hguard])]
  · unfold handleTaskLookup
    rw [if_neg (by simp [hguard])]

/-- C8 (witness): looking up `T1` against an empty history appends one
synthetic Job; looking it up again right away does not duplicate it; a
failed lookup leaves the history empty. -/
theorem lookup_dedup_and_error_no_mutation_witness :
    (handleTaskLookup trackerLookup (Except.ok lookResp)).videoHistory =
      [mkMockJob "T1" lookResp] ∧
    (handleTaskLookup
        { trackerLookup with videoHistory := [mkMockJob "T1" lookResp] }
        (Except.ok lookResp)).videoHistory = [mkMockJob "T1" lookResp] ∧
    (handleTaskLookup trackerLookup (Except.error "HTTP 404: Not Found")).videoHistory = [] := by
  refine ⟨?_, ?_, ?_⟩
  · have h := (lookup_dedup_and_error_no_mutation trackerLookup lookResp "x"
      (by decide) (by decide)).2.1 (by decide)
    rw [h]
    decide
  · have h := (lookup_dedup_and_error_no_mutation
      { trackerLookup with videoHistory := [mkMockJob "T1" lookResp] } lookResp "x"
      (by decide) (by decide)).1 (by decide)
    rw [h]
  · exact (lookup_dedup_and_error_no_mutation trackerLookup lookResp
      "HTTP 404: Not Found" (by decide) (by decide)).2.2.1

/-- C9 (confirmed): the browser client sends the img2video duration as the
string `finalDuration.toString()`; for every duration the duration selector
can hold (4, 5 or 8 seconds), a model other than `viduq1`, and no explicit
resolution, the proxy's strict numeric comparisons both fail on the string,
so the forwarded request carries no resolution field at all. -/
theorem string_duration_omits_resolution (images : List String)
    (prompt : Option String) (model : String) (imageDuration : Int)
    (seed : Option JVal) (ma : String) (bgm : Bool) (fwd : Img2VideoForward)
    (hm : model ≠ "viduq1")
    (hdur : imageDuration = 4 ∨ imageDuration = 5 ∨ imageDuration = 8)
    (h : img2videoForward images prompt model
          (some (clientSentDuration model imageDuration)) seed none ma bgm =
        Except.ok fwd) :
    fwd.resolution = none := by
  obtain ⟨hv, hd, hr⟩ := img2videoForward_ok h
  have hm2 : (model == "viduq1") = false := by simp [hm]
  rw [hr]
  rcases hdur with h4 | h5 | h8 <;> subst_vars <;>
    simp [clientSentDuration, clientFinalDuration, img2videoFinalResolution,
          img2videoFinalDuration, img2videoDefaultResolution, JVal.truthy, hm2,
          show toString (4:Int) = "4" from rfl, show toString (5:Int) = "5" from rfl,
          show toString (8:Int) = "8" from rfl]

/-- C9 (witness): the client-sent duration for model `vidu2.0` at 8 seconds
is the string `"8"`, and the proxy forwards that request with no resolution
field. -/
theorem string_duration_omits_resolution_witness :
    clientSentDuration "vidu2.0" 8 = JVal.str "8" ∧
    img2videoForward ["i"] none "vidu2.0" (some (clientSentDuration "vidu2.0" 8))
      none none "auto" false = Except.ok fwdStr8 ∧
    fwdStr8.resolution = none := by
  refine ⟨by decide, rfl, ?_⟩
  exact string_duration_omits_resolution ["i"] none "vidu2.0" 8 none "auto"
    false fwdStr8 (by decide) (by decide) rfl

/-- C10 (confirmed): the synthetic Job a successful lookup constructs maps
remote state `success` to local status `completed`, `error` to `failed` and
anything else to `processing`, and its prompt is the response payload when
non-empty and the placeholder `Retrieved from task ID` otherwise. -/
theorem mock_job_status_prompt_mapping (s : Tracker) (resp : CreationsResponse)
    (ht : jsTrim s.taskIdInput ≠ "") (hl : s.isLookingUp = false) :
    (handleTaskLookup s (Except.ok resp)).currentTaskResponse =
      some (mkMockJob (jsTrim s.taskIdInput) resp) ∧
    (mkMockJob (jsTrim s.taskIdInput) resp).status =
      (if resp.state = "success" then "completed"
       else if resp.state = "error" then "failed" else "processing") ∧
    (mkMockJob (jsTrim s.taskIdInput) resp).prompt =
      (if resp.payload ≠ "" then resp.payload else "Retrieved from task ID") := by
  have hguard : (jsTrim s.taskIdInput == "" || s.isLookingUp) = false := by
    simp [ht, hl]
  refine ⟨?_, ?_, ?_⟩
  · unfold handleTaskLookup
    rw [if_neg (by simp [hguard])]
  · by_cases h1 : resp.state = "success" <;> by_cases h2 : resp.state = "error" <;>
      simp [mkMockJob, h1, h2]
  · by_cases h : resp.payload = "" <;> simp [mkMockJob, h]

/-- C10 (witness): looking up `T1` with a success response carrying payload
`My prompt` stores a synthetic Job with status `completed` and that prompt. -/
theorem mock_job_status_prompt_mapping_witness :
    (handleTaskLookup trackerLookup (Except.ok lookResp)).currentTaskResponse =
      some (mkMockJob (jsTrim trackerLookup.taskIdInput) lookResp) ∧
    (mkMockJob (jsTrim trackerLookup.taskIdInput) lookResp).status = "completed" ∧
    (mkMockJob (jsTrim trackerLookup.taskIdInput) lookResp).prompt = "My prompt" := by
  have h := mock_job_status_prompt_mapping trackerLookup lookResp
    (by decide) (by decide)
  refine ⟨h.1, ?_, ?_⟩
  · rw [h.2.1]
    decide
  · rw [h.2.2]
    decide
